import Mathlib

/-!
Verification development for the AI-processor / validation-engine core of the
Infinity repository (src/backend/ai_processor.py, src/backend/validation_engine.py).

The development shallowly embeds:
  * the Pydantic record schemas (ScopeDocument, ContentFramework and its item
    structs);
  * the text-cleaning strategies of AIProcessor._run_raw (strategies 0 - 2,
    the only ones that execute before the function returns);
  * the control flow of AIProcessor._run_raw itself, with the model gateway
    modelled as a stream of call outcomes;
  * AIProcessor.generate_scope / generate_framework;
  * AIProcessor.merge_scopes / merge_frameworks;
  * the ValidationEngine vector-store state machine (load_index, save_index,
    add_reference_doc, add_feedback, search), with durable writes that may fail.

Machine strings are modelled as Lean strings; the character-level helpers below
reimplement the exact Python primitives used by the source (str.split on a
separator, str.strip, str.find / str.rfind, substring membership).
-/

namespace Infinity

/-! ## Character/string primitives mirroring Python builtins -/

/-- Python whitespace for `str.strip()` (ASCII subset actually produced by the
model gateway: space, tab, newline, carriage return, vertical tab, form feed). -/
def isPyWs (c : Char) : Bool :=
  c = ' ' || c = '\t' || c = '\n' || c = '\r' || c = '\x0b' || c = '\x0c'

/-- Python `s.strip()` on a character list: drop whitespace at both ends. -/
def pyStripL (l : List Char) : List Char :=
  ((l.dropWhile isPyWs).reverse.dropWhile isPyWs).reverse

/-- Python `s.strip()` on strings. -/
def pyStrip (s : String) : String :=
  String.mk (pyStripL s.toList)

/-- Python `s.split(c)` for a single-character separator. -/
def splitOnChar (sep : Char) : List Char → List (List Char)
  | [] => [[]]
  | c :: rest =>
    if c = sep then [] :: splitOnChar sep rest
    else
      match splitOnChar sep rest with
      | h :: t => (c :: h) :: t
      | [] => [[c]]

/-- Fuelled worker for Python `s.split(sep)` with a multi-character separator.
The fuel is always supplied as `l.length + 1`, which is enough because every
step consumes at least one character. -/
def splitOnSubF (sep : List Char) : Nat → List Char → List (List Char)
  | 0, l => [l]
  | _ + 1, [] => [[]]
  | fuel + 1, c :: rest =>
    if !sep.isEmpty && sep.isPrefixOf (c :: rest) then
      [] :: splitOnSubF sep fuel ((c :: rest).drop sep.length)
    else
      match splitOnSubF sep fuel rest with
      | h :: t => (c :: h) :: t
      | [] => [[c]]

/-- Python `s.split(sep)` for a non-empty multi-character separator:
non-overlapping, leftmost-first cuts. -/
def splitOnSub (sep l : List Char) : List (List Char) :=
  splitOnSubF sep (l.length + 1) l

/-- Python substring membership `sub in s` on character lists. -/
def containsSub (sub : List Char) : List Char → Bool
  | [] => sub.isEmpty
  | c :: rest => sub.isPrefixOf (c :: rest) || containsSub sub rest

/-- Python substring membership `pat in s` on strings. -/
def hasSub (s pat : String) : Bool :=
  containsSub pat.toList s.toList

/-- Python `s.find(t)` for a single character: index of the first occurrence. -/
def firstIdxOf (t : Char) : List Char → Option Nat
  | [] => none
  | c :: rest => if c = t then some 0 else (firstIdxOf t rest).map (· + 1)

/-- Python `s.rfind(t)` for a single character: index of the last occurrence. -/
def lastIdxOf (t : Char) : List Char → Option Nat
  | [] => none
  | c :: rest =>
    match lastIdxOf t rest with
    | some k => some (k + 1)
    | none => if c = t then some 0 else none

/-- The `\x7b` character (opening brace). -/
def lbraceC : Char := '\x7b'

/-- The `\x7d` character (closing brace). -/
def rbraceC : Char := '\x7d'

/-! ## Record schemas (ai_processor.py, Pydantic models)

Scalar text fields become `String`; `List[str]` fields become `List String`.
`Optional[Union[str, List[str]]]` fields (`key_sections`, `nested_items`)
become the sum type `StrOrList`.  Pydantic validation guarantees every stored
element has the declared type, so list elements are plain strings here. -/

/-- A value of Python type `Union[str, List[str]]`. -/
inductive StrOrList where
  | s (v : String)
  | l (v : List String)
deriving DecidableEq, Repr

/-- `class ScopeDocument(BaseModel)` (ai_processor.py lines 98-105).
`strategic_recommendations` has `default_factory=list`. -/
structure ScopeDocument where
  project_title : String
  objectives : List String
  scope_in : List String
  scope_out : List String
  navigation : List String
  gap_analysis : List String
  strategic_recommendations : List String := []
deriving DecidableEq, Repr

/-- `class HeaderNavItem(BaseModel)` (ai_processor.py lines 107-117); all
fields optional with the defaults written in the source. -/
structure HeaderNavItem where
  main_nav : String := ""
  dropdown : String := ""
  final_destination : String := ""
  page_type : String := ""
  page_description : String := ""
  key_sections : StrOrList := StrOrList.s ""
  content_type : String := ""
  content_link : String := ""
  status : String := "Not Started"
  client_notes : String := ""
deriving DecidableEq, Repr

/-- `class FooterNavItem(BaseModel)` (ai_processor.py lines 119-128). -/
structure FooterNavItem where
  menu_title : String := ""
  nested_items : StrOrList := StrOrList.s ""
  page_type : String := ""
  page_description : String := ""
  key_sections : StrOrList := StrOrList.s ""
  content_type : String := ""
  content_link : String := ""
  status : String := "Not Started"
  client_notes : String := ""
deriving DecidableEq, Repr

/-- `class WebsiteAsset(BaseModel)` (ai_processor.py lines 130-136). -/
structure WebsiteAsset where
  asset_required : String := ""
  description : String := ""
  content_type : String := ""
  content_link : String := ""
  status : String := "Not Started"
  client_notes : String := ""
deriving DecidableEq, Repr

/-- `class ContentFramework(BaseModel)` (ai_processor.py lines 138-142). -/
structure ContentFramework where
  header_nav : List HeaderNavItem := []
  footer_nav : List FooterNavItem := []
  website_assets : List WebsiteAsset := []
  cta_strategy : String := ""
deriving DecidableEq, Repr

/-! ## Cleaning strategies of `AIProcessor._run_raw`

These embed strategies 0 - 2 (ai_processor.py lines 243-289), the code that
actually executes on the raw completion text before the function returns. -/

/-- The emoji codepoints of the character class in the strategy-0 regex
`[🏠🛍️📚🤔📞🖼️📸📝🔗💬🎯📋📄📢]` (each codepoint of the class matched
individually, variation selectors included). -/
def emojiChars : List Char :=
  "🏠🛍️📚🤔📞🖼️📸📝🔗💬🎯📋📄📢".toList

/-- First branch of the strategy-0 line filter: the regex
`re.match(r'^#+\s+|^\s*[-*]{3,}', line)` — a run of `#` followed by
whitespace at the start of the line, or at least three `-`/`*` after
optional leading whitespace. -/
def matchHeadingOrRule (l : List Char) : Bool :=
  (match l with
   | c :: _ =>
     c = '#' &&
       (match l.dropWhile (fun c => c = '#') with
        | c' :: _ => isPyWs c'
        | [] => false)
   | [] => false)
  || ((l.dropWhile isPyWs).takeWhile (fun c => c = '-' || c = '*')).length ≥ 3

/-- Third branch of the strategy-0 line filter: the regex
`re.match(r'^\s*(-+|\|+|\s*\|)', line)`.  After the leading whitespace the
group must match `-+`, `\|+`, or `\s*\|`; since all leading whitespace is
already consumed, this holds exactly when the first non-whitespace character
is `-` or `|`. -/
def matchTableSep (l : List Char) : Bool :=
  match l.dropWhile isPyWs with
  | c :: _ => c = '-' || c = '|'
  | [] => false

/-- Strategy 0 (lines 243-259): split into lines; drop markdown headings,
horizontal rules, emoji lines, blank lines and table separators; strip each
surviving line; re-join with newlines. -/
def strategy0L (cs : List Char) : List Char :=
  List.intercalate ['\n']
    ((splitOnChar '\n' cs).filterMap fun line =>
      if matchHeadingOrRule line || line.any (fun c => emojiChars.contains c) then none
      else if (pyStripL line).isEmpty then none
      else if matchTableSep line then none
      else some (pyStripL line))

/-- The fence markers used by strategy 1. -/
def fenceJson : List Char := "```json".toList

/-- The bare fence marker. -/
def fence : List Char := "```".toList

/-- Strategy 1 (lines 261-269): if the text contains a ```` ```json ````
fence, keep what stands between that fence and the next ```` ``` ````,
stripped; otherwise if it contains a bare fence, keep the first fenced
segment, stripped. -/
def strategy1L (cs : List Char) : List Char :=
  if containsSub fenceJson cs then
    match splitOnSub fenceJson cs with
    | _ :: p1 :: _ =>
      (match splitOnSub fence p1 with
       | q0 :: _ => pyStripL q0
       | [] => p1)
    | _ => cs
  else if containsSub fence cs then
    match splitOnSub fence cs with
    | _ :: p1 :: _ => pyStripL p1
    | _ => cs
  else cs

/-- Matcher for the regex fragment `[^\x7b\x7d]*\x7d` at a position: skip
non-brace characters; the first brace encountered must be a closing one. -/
def flatClose : List Char → Bool
  | [] => false
  | c :: rest =>
    if c = rbraceC then true
    else if c = lbraceC then false
    else flatClose rest

/-- Matcher for `re.search` of the pattern `\x7b[^\x7b\x7d]*\x7d` anywhere in
the text (the last-ditch bounding search of strategy 2, line 282). -/
def flatBraceMatch : List Char → Bool
  | [] => false
  | c :: rest => (c = lbraceC && flatClose rest) || flatBraceMatch rest

/-- Strategy 2 (lines 271-289): truncate to the substring between the first
`\x7b` and the last `\x7d`.  The source's `else` arm searches for a flat
brace-delimited substring with `re.search`; lemma
`strategy2_fallback_vacuous` below shows that the regex can only match when
the main branch was already taken, so that arm never changes the text and is
embedded as the identity. -/
def strategy2L (cs : List Char) : List Char :=
  match firstIdxOf lbraceC cs, lastIdxOf rbraceC cs with
  | some i, some j => if i < j then (cs.drop i).take (j + 1 - i) else cs
  | _, _ => cs

/-- The cleaned text that `_run_raw` computes from the raw completion before
reaching its return statement: strategies 0, 1 and 2 in order. -/
def cleanPipeline (s : String) : String :=
  String.mk (strategy2L (strategy1L (strategy0L s.toList)))

/-- The schema-regurgitation indicator substrings of strategy 4
(ai_processor.py line 347). -/
def schema_indicators : List String :=
  ["\"properties\":", "\"$defs\":", "\"definitions\":", "\"type\": \"object\""]

/-- `is_schema = any(indicator in content for indicator in schema_indicators)`
(line 348). -/
def is_schema_text (content : String) : Bool :=
  schema_indicators.any (fun ind => hasSub content ind)

/-! ## The `_run_raw` cascade (ai_processor.py lines 221-414)

The gateway (`active_llm.invoke`) is modelled as a stream of outcomes indexed
by call number: each activation of `_run_raw` issues exactly one gateway call
and consumes the next outcome.  `ok text` is a normal completion carrying the
raw text, `err msg` an exception whose message is examined by the handler.

Inside the `try` block, after strategies 0-2 compute the cleaned text, the
source UNCONDITIONALLY executes `return ContentFramework(...)` with a fixed
hardcoded example (lines 296-311, comments in the source call it a
"last-resort fallback" yet no condition guards it).  The guarding
`except ValidationError` arm cannot fire because the literal passed to the
constructor is valid for the schema, and everything from line 320 to 388 —
the `[...]`-fix, the continuation repair, schema-regurgitation detection
(strategy 4), the strict parse (strategy 5), the regex salvage (strategy 6),
the generic-JSON salvage (strategy 7) and the LLM repair (strategy 8) — is
statically unreachable, standing after a `return` on every path.  The
embedding therefore returns the hardcoded framework on every normal gateway
outcome; the cleaning steps are still executed (and discarded) exactly as in
the source.  The exception handler (lines 390-414) recurses once with
`is_retry=True, use_fallback=True` when `is_retry` is false — both the
rate-limit branch (line 399) and the generic branch (line 411) make that same
call, the sleeps in between having no effect on the value — and raises
`RuntimeError("ALL ATTEMPTS FAILED: ...")` when already retrying. -/

/-- One gateway call outcome. -/
inductive GatewayOutcome where
  | ok (text : String)
  | err (msg : String)

/-- Which Pydantic output parser `_run_raw` was handed
(`self.scope_parser` or `self.framework_parser`). -/
inductive ParserKind where
  | scope
  | framework
deriving DecidableEq, Repr

/-- A value `_run_raw` can produce for its caller: a parsed `ScopeDocument`,
a `ContentFramework`, or a raised fatal error. -/
inductive RunResult where
  | scopeDoc (d : ScopeDocument)
  | framework (f : ContentFramework)
  | fatal (msg : String)
deriving DecidableEq, Repr

/-- The fixed example `ContentFramework` of lines 296-311, transcribed
field-for-field. -/
def hardcodedFramework : ContentFramework :=
  { header_nav :=
      [ { main_nav := "Home", dropdown := "", final_destination := "Homepage",
          page_type := "Main Page", page_description := "Project landing page",
          key_sections := StrOrList.s "Hero Section, Features Grid",
          content_type := "Copy", content_link := "", status := "Not Started",
          client_notes := "" },
        { main_nav := "Shop", dropdown := "Category 1, Category 2",
          final_destination := "Shop Page", page_type := "Menu",
          page_description := "Links to shop categories",
          key_sections := StrOrList.s "Social Icons", content_type := "Copy",
          content_link := "", status := "Not Started", client_notes := "" } ],
    footer_nav :=
      [ { menu_title := "Shop", nested_items := StrOrList.s "Category 1, Category 2",
          page_type := "Menu", page_description := "Links to shop categories",
          key_sections := StrOrList.s "Social Icons", content_type := "Copy",
          content_link := "", status := "Not Started", client_notes := "" },
        { menu_title := "About", nested_items := StrOrList.s "Our Story, FAQs",
          page_type := "Menu", page_description := "Company information page",
          key_sections := StrOrList.s "", content_type := "Copy",
          content_link := "", status := "Not Started", client_notes := "" },
        { menu_title := "Contact Support",
          nested_items := StrOrList.s "Contact Form, Support Email",
          page_type := "Menu", page_description := "Links to contact support pages",
          key_sections := StrOrList.s "", content_type := "Copy",
          content_link := "", status := "Not Started", client_notes := "" } ],
    website_assets :=
      [ { asset_required := "Logo", description := "High-res SVG logo",
          content_type := "Branding", content_link := "", status := "Not Started",
          client_notes := "" },
        { asset_required := "Product Imagery",
          description := "Product images for online store",
          content_type := "Product Media", content_link := "",
          status := "Not Started", client_notes := "" } ],
    cta_strategy :=
      "Strategic call to action text to encourage users to download and use the app." }

/-- `AIProcessor._run_raw`.  The second component of the result counts the
activations of `_run_raw` performed (1 for the call itself plus the
activations of its recursive retry, if any), making the recursion depth
observable. -/
def run_raw (p : ParserKind) (σ : Nat → GatewayOutcome) (i : Nat)
    (is_retry use_fallback : Bool) : RunResult × Nat :=
  match σ i with
  | GatewayOutcome.ok text =>
      let content := cleanPipeline text
      (RunResult.framework hardcodedFramework, 1)
  | GatewayOutcome.err msg =>
      match is_retry with
      | false =>
          let r := run_raw p σ (i + 1) true true
          (r.1, r.2 + 1)
      | true =>
          (RunResult.fatal ("ALL ATTEMPTS FAILED: " ++ msg), 1)
termination_by (if is_retry then 0 else 1)
decreasing_by simp

/-- `AIProcessor.generate_scope` (lines 416-447): builds the prompt and
returns `_run_raw(prompt, inputs, self.scope_parser)` unchanged.  The prompt
text does not influence the value `_run_raw` computes, so only the gateway
outcome stream is retained. -/
def generate_scope (σ : Nat → GatewayOutcome) : RunResult :=
  (run_raw ParserKind.scope σ 0 false false).1

/-- The minimal fallback of `generate_framework`'s `except` arm (lines
490-495); the inner `except ValidationError` arm cannot fire since the
literal is schema-valid. -/
def fallbackFramework : ContentFramework :=
  { header_nav := [], footer_nav := [], website_assets := [],
    cta_strategy := "Generated by fallback due to parsing error." }

/-- `AIProcessor.generate_framework` (lines 449-503): runs `_run_raw` with the
framework parser and converts a raised error into the minimal fallback
framework.  The `result is None` check never fires (`_run_raw` cannot return
`None`). -/
def generate_framework (σ : Nat → GatewayOutcome) : RunResult :=
  match (run_raw ParserKind.framework σ 0 false false).1 with
  | RunResult.fatal _ => RunResult.framework fallbackFramework
  | r => r

/-! ## Consensus merges (ai_processor.py lines 506-561) -/

/-- Worker for the seen-set deduplication loop shared by `merge_scopes`'
inner `dedupe` and `merge_frameworks`' inner `dedupe_list`: keep the first
item for each distinct key, in order. -/
def dedupeByGo {α κ : Type} [DecidableEq κ] (key : α → κ) (seen : List κ) :
    List α → List α
  | [] => []
  | item :: rest =>
    if key item ∈ seen then dedupeByGo key seen rest
    else item :: dedupeByGo key (key item :: seen) rest

/-- Deduplication by key, starting from an empty seen set. -/
def dedupeBy {α κ : Type} [DecidableEq κ] (key : α → κ) (l : List α) : List α :=
  dedupeByGo key [] l

/-- `dedupe` inside `merge_scopes` (lines 507-517).  The loop compares each
element by `val`, where `val = "|".join(map(str, i))` only when the element is
itself a list — impossible for an element of a validated `List[str]` field —
so the key is the element itself. -/
def dedupe (x : List String) : List String :=
  dedupeBy (fun v => v) x

/-- `AIProcessor.merge_scopes` (lines 519-526).  The constructor call passes
no `strategic_recommendations`, so Pydantic fills it with its
`default_factory=list` — the empty list. -/
def merge_scopes (a b : ScopeDocument) : ScopeDocument :=
  { project_title := a.project_title,
    objectives := dedupe (a.objectives ++ b.objectives),
    scope_in := dedupe (a.scope_in ++ b.scope_in),
    scope_out := dedupe (a.scope_out ++ b.scope_out),
    navigation := dedupe (a.navigation ++ b.navigation),
    gap_analysis := dedupe (a.gap_analysis ++ b.gap_analysis),
    strategic_recommendations := [] }

/-- The single-quote character. -/
def squoteC : Char := '\x27'

/-- The double-quote character. -/
def dquoteC : Char := '\x22'

/-- Python `repr` of a short string as it appears inside `str(list)`: double
quotes when the string contains a single quote and no double quote, single
quotes otherwise.  (Backslash/control-character escaping, irrelevant for the
identifying attributes compared here, is not modelled.) -/
def pyReprStr (s : String) : String :=
  if s.toList.contains squoteC && !(s.toList.contains dquoteC) then
    String.mk [dquoteC] ++ s ++ String.mk [dquoteC]
  else
    String.mk [squoteC] ++ s ++ String.mk [squoteC]

/-- Python `str` of a list of strings: `['a', 'b']`. -/
def pyStrList (v : List String) : String :=
  "[" ++ String.intercalate ", " (v.map pyReprStr) ++ "]"

/-- The normalisation `if isinstance(v, (list, dict)): v = str(v)` applied by
`dedupe_list` to each projected attribute (lines 540-543): a plain string is
kept, a list is flattened through Python `str`. -/
def strOrListKey : StrOrList → String
  | StrOrList.s v => v
  | StrOrList.l v => pyStrList v

/-- The identifying projection for header-navigation items
(`['main_nav', 'dropdown', 'final_destination']`, line 551). -/
def headerKey (it : HeaderNavItem) : String × String × String :=
  (it.main_nav, it.dropdown, it.final_destination)

/-- The identifying projection for footer-navigation items
(`['menu_title', 'nested_items']`, line 552). -/
def footerKey (it : FooterNavItem) : String × String :=
  (it.menu_title, strOrListKey it.nested_items)

/-- The identifying projection for website assets
(`['asset_required']`, line 553). -/
def assetKey (it : WebsiteAsset) : String :=
  it.asset_required

/-- `AIProcessor.merge_frameworks` (lines 528-561).  The trailing
`project_title=...`, `objectives=...`, ... keyword arguments evaluate to the
`getattr` defaults (neither `ContentFramework` carries those attributes) and
are dropped by Pydantic as unknown fields, leaving no trace in the result. -/
def merge_frameworks (a b : ContentFramework) : ContentFramework :=
  { header_nav := dedupeBy headerKey (a.header_nav ++ b.header_nav),
    footer_nav := dedupeBy footerKey (a.footer_nav ++ b.footer_nav),
    website_assets := dedupeBy assetKey (a.website_assets ++ b.website_assets),
    cta_strategy := a.cta_strategy }

/-! ## The vector store (validation_engine.py)

`ValidationEngine` keeps a FAISS flat index and a parallel metadata list in
memory, mirrored to two files (`index.faiss`, `metadata.pkl`).  The embedding
computation is an external collaborator, so the stored vectors are an
abstract type `E` and each add operation takes the computed embedding as an
argument.  The two durable files are modelled as `Option` fields (`none` =
absent); each file write is tagged with a success flag, since
`faiss.write_index` and the metadata `open`/`pickle.dump` can each fail
independently.  A failed write is modelled as failing before changing the
file (e.g. `open(..., 'wb')` itself raising), leaving the previous contents.
Operations return the post-state together with `some msg` when the Python
code would raise. -/

/-- One metadata record appended by `add_reference_doc` (lines 49-53). -/
structure MetaEntry where
  id : String
  content : String
  metadata : List (String × String)
deriving DecidableEq, Repr

/-- The `ValidationEngine` state: in-memory index and metadata plus the two
durable files. -/
structure VS (E : Type) where
  index : List E
  metadata : List MetaEntry
  diskIndex : Option (List E)
  diskMeta : Option (List MetaEntry)
deriving DecidableEq, Repr

/-- A store as first constructed over an empty persist directory. -/
def freshVS (E : Type) : VS E :=
  { index := [], metadata := [], diskIndex := none, diskMeta := none }

/-- `ValidationEngine.load_index` (lines 27-34): if the index file exists,
read it into `self.index` and then unpickle the metadata — a missing or
unreadable metadata file raises at that point, after `self.index` was already
replaced; otherwise start a fresh empty index and metadata list. -/
def load_index {E : Type} (s : VS E) : VS E × Option String :=
  match s.diskIndex with
  | some idx =>
      let s1 := { s with index := idx }
      match s1.diskMeta with
      | some m => ({ s1 with metadata := m }, none)
      | none => (s1, some "metadata read failed")
  | none => ({ s with index := [], metadata := [] }, none)

/-- `ValidationEngine.save_index` (lines 36-39): write the index file, then
pickle the metadata.  `w1`/`w2` flag the success of the two writes; a raise
leaves the writes already performed in place. -/
def save_index {E : Type} (w1 w2 : Bool) (s : VS E) : VS E × Option String :=
  if w1 then
    let s1 := { s with diskIndex := some s.index }
    if w2 then ({ s1 with diskMeta := some s1.metadata }, none)
    else (s1, some "metadata write failed")
  else (s, some "index write failed")

/-- `ValidationEngine.add_reference_doc` (lines 46-54): append the embedding
to the in-memory index and the record to the in-memory metadata, then persist
via `save_index`.  There is no rollback of the in-memory appends when the
persist raises. -/
def add_reference_doc {E : Type} (w1 w2 : Bool) (doc_id content : String)
    (md : List (String × String)) (emb : E) (s : VS E) : VS E × Option String :=
  let s1 := { s with
    index := s.index ++ [emb],
    metadata := s.metadata ++ [{ id := doc_id, content := content, metadata := md }] }
  save_index w1 w2 s1

/-- `ValidationEngine.add_feedback` (lines 69-81): build the combined
document text, a time-derived id, and delegate to `add_reference_doc` with
metadata `type=feedback`. -/
def add_feedback {E : Type} (w1 w2 : Bool)
    (scope_json framework_json feedback_text : String) (ts : Nat) (emb : E)
    (s : VS E) : VS E × Option String :=
  add_reference_doc w1 w2 ("feedback-" ++ toString ts)
    ("SCOPE\n" ++ scope_json ++ "\n\n" ++ "FRAMEWORK\n" ++ framework_json ++
      "\n\n" ++ "FEEDBACK\n" ++ feedback_text)
    [("type", "feedback")] emb s

/-- One operation against a `ValidationEngine` instance.  `search` stands for
`validate_content`/`find_best_match`, which only read the index. -/
inductive VSOp (E : Type) where
  | load
  | save (w1 w2 : Bool)
  | addRef (w1 w2 : Bool) (doc_id content : String) (md : List (String × String)) (emb : E)
  | addFb (w1 w2 : Bool) (scope_json framework_json feedback_text : String) (ts : Nat) (emb : E)
  | search

/-- Run one operation. -/
def runOp {E : Type} (s : VS E) : VSOp E → VS E × Option String
  | VSOp.load => load_index s
  | VSOp.save w1 w2 => save_index w1 w2 s
  | VSOp.addRef w1 w2 d c md e => add_reference_doc w1 w2 d c md e s
  | VSOp.addFb w1 w2 sj fj fb ts e => add_feedback w1 w2 sj fj fb ts e s
  | VSOp.search => (s, none)

/-- Run a sequence of operations, keeping the state across raised errors
(the engine object outlives a failed request). -/
def runOps {E : Type} (s : VS E) : List (VSOp E) → VS E
  | [] => s
  | op :: rest => runOps (runOp s op).1 rest

/-- Does the operation perform only successful durable writes? -/
def opWritesOk {E : Type} : VSOp E → Bool
  | VSOp.save w1 w2 => w1 && w2
  | VSOp.addRef w1 w2 _ _ _ _ => w1 && w2
  | VSOp.addFb w1 w2 _ _ _ _ _ => w1 && w2
  | _ => true

/-- The store invariant: the in-memory sequences are parallel
(`index.ntotal == len(self.metadata)`), and so are the durable files whenever
the index file is readable. -/
def vsInv {E : Type} (s : VS E) : Bool :=
  s.index.length = s.metadata.length &&
    (match s.diskIndex, s.diskMeta with
     | some di, some dm => di.length = dm.length
     | some _, none => false
     | none, _ => true)

/-! ## Concrete inputs used by the claim theorems -/

/-- The end-to-end raw model output of the specification's testable-property
list: prose, a fenced JSON scope object with a duplicated objective, prose. -/
def acmeRaw : String :=
  "Here is the JSON:\n```json\n\x7b\"project_title\":\"Acme Site\",\"objectives\":[\"Grow signups\",\"Grow signups\"],\"scope_in\":[],\"scope_out\":[],\"navigation\":[],\"gap_analysis\":[]\x7d\n```\nLet me know if you need changes."

/-- The JSON object inside `acmeRaw`'s fenced block. -/
def acmeJson : String :=
  "\x7b\"project_title\":\"Acme Site\",\"objectives\":[\"Grow signups\",\"Grow signups\"],\"scope_in\":[],\"scope_out\":[],\"navigation\":[],\"gap_analysis\":[]\x7d"

/-- A raw completion that regurgitates a schema fragment: it survives the
cleaning pipeline unchanged and contains the `"properties":` indicator. -/
def propText : String := "\x7b\"properties\": \x7b\x7d\x7d"

/-- A scope record with the given title and empty lists. -/
def titledScope (t : String) : ScopeDocument :=
  { project_title := t, objectives := [], scope_in := [], scope_out := [],
    navigation := [], gap_analysis := [], strategic_recommendations := [] }

/-- A scope record with duplicate-free lists and a non-empty
`strategic_recommendations`. -/
def recScope : ScopeDocument :=
  { project_title := "T", objectives := ["o"], scope_in := ["i"],
    scope_out := ["x"], navigation := ["n"], gap_analysis := ["g"],
    strategic_recommendations := ["tip"] }

/-- An operation sequence with one failing durable write: a successful add,
an add whose metadata write fails (the index file now holds two vectors, the
metadata file still one record), then a reload. -/
def breakOps : List (VSOp Nat) :=
  [VSOp.addRef true true "a" "ca" [] 0,
   VSOp.addRef true false "b" "cb" [] 1,
   VSOp.load]

/-- An all-successful operation sequence. -/
def demoOps : List (VSOp Nat) :=
  [VSOp.addRef true true "d" "c" [] 0,
   VSOp.addFb true true "sj" "fj" "fb" 7 1,
   VSOp.save true true,
   VSOp.load,
   VSOp.search]

end Infinity

namespace Infinity

/-! ## Helper lemmas: the seen-set deduplication loop -/

/-- A list whose keys are all already seen deduplicates to nothing. -/
theorem dedupeByGo_eq_nil {α κ : Type} [DecidableEq κ] (key : α → κ)
    (seen : List κ) (l : List α) (h : ∀ x ∈ l, key x ∈ seen) :
    dedupeByGo key seen l = [] := by
  induction l with
  | nil => rfl
  | cons i rest ih =>
    simp only [dedupeByGo]
    rw [if_pos (h i (List.mem_cons_self i rest))]
    exact ih fun x hx => h x (List.mem_cons_of_mem i hx)

/-- Running the loop on `l ++ l'` returns exactly `l` when `l` has pairwise
distinct unseen keys and every key of `l'` is either seen or a key of `l`. -/
theorem dedupeByGo_absorb {α κ : Type} [DecidableEq κ] (key : α → κ) :
    ∀ (l : List α) (l' : List α) (seen : List κ),
      (l.map key).Nodup → (∀ x ∈ l, key x ∉ seen) →
      (∀ x ∈ l', key x ∈ seen ∨ key x ∈ l.map key) →
      dedupeByGo key seen (l ++ l') = l := by
  intro l
  induction l with
  | nil =>
    intro l' seen _ _ h3
    simp only [List.nil_append]
    refine dedupeByGo_eq_nil key seen l' fun x hx => ?_
    rcases h3 x hx with h | h
    · exact h
    · simp at h
  | cons i rest ih =>
    intro l' seen hnd hseen hl'
    rw [List.map_cons, List.nodup_cons] at hnd
    simp only [List.cons_append, dedupeByGo]
    rw [if_neg (hseen i (List.mem_cons_self i rest))]
    congr 1
    refine ih l' (key i :: seen) hnd.2 ?_ ?_
    · intro x hx
      rw [List.mem_cons]
      push_neg
      exact ⟨fun hcontra => hnd.1 (hcontra ▸ List.mem_map_of_mem key hx),
             hseen x (List.mem_cons_of_mem i hx)⟩
    · intro x hx
      rcases hl' x hx with h | h
      · exact Or.inl (List.mem_cons_of_mem _ h)
      · rw [List.map_cons] at h
        rcases List.mem_cons.mp h with h' | h'
        · exact Or.inl (h' ▸ List.mem_cons_self _ _)
        · exact Or.inr h'

/-- Deduplicating a doubled list with pairwise distinct keys gives it back. -/
theorem dedupeBy_double {α κ : Type} [DecidableEq κ] (key : α → κ) (l : List α)
    (h : (l.map key).Nodup) : dedupeBy key (l ++ l) = l := by
  unfold dedupeBy
  refine dedupeByGo_absorb key l l [] h (by simp) ?_
  intro x hx
  exact Or.inr (List.mem_map_of_mem key hx)

/-- The scope-side `dedupe` on a doubled duplicate-free list gives it back. -/
theorem dedupe_double (l : List String) (h : l.Nodup) : dedupe (l ++ l) = l := by
  unfold dedupe
  refine dedupeBy_double _ l ?_
  simpa using h

/-! ## Helper lemmas: the strategy-2 fallback search is vacuous -/

/-- `firstIdxOf` finds an index no later than any occurrence. -/
theorem firstIdxOf_min (t : Char) :
    ∀ (cs : List Char) (i : Nat), cs.get? i = some t →
      ∃ i₀, firstIdxOf t cs = some i₀ ∧ i₀ ≤ i := by
  intro cs
  induction cs with
  | nil => intro i h; simp at h
  | cons c rest ih =>
    intro i h
    by_cases hc : c = t
    · exact ⟨0, by simp [firstIdxOf, hc], Nat.zero_le i⟩
    · cases i with
      | zero =>
        rw [List.get?_cons_zero, Option.some_inj] at h
        exact absurd h hc
      | succ n =>
        rw [List.get?_cons_succ] at h
        obtain ⟨i₀, hfi, hle⟩ := ih n h
        exact ⟨i₀ + 1, by simp [firstIdxOf, hc, hfi], Nat.succ_le_succ hle⟩

/-- `lastIdxOf` finds an index no earlier than any occurrence. -/
theorem lastIdxOf_max (t : Char) :
    ∀ (cs : List Char) (j : Nat), cs.get? j = some t →
      ∃ j₀, lastIdxOf t cs = some j₀ ∧ j ≤ j₀ := by
  intro cs
  induction cs with
  | nil => intro j h; simp at h
  | cons c rest ih =>
    intro j h
    cases j with
    | zero =>
      have hc : c = t := by
        rw [List.get?_cons_zero, Option.some_inj] at h
        exact h
      cases hr : lastIdxOf t rest with
      | some k => exact ⟨k + 1, by simp [lastIdxOf, hr], Nat.zero_le _⟩
      | none => exact ⟨0, by simp [lastIdxOf, hr, hc], Nat.le_refl 0⟩
    | succ n =>
      rw [List.get?_cons_succ] at h
      obtain ⟨j₀, hfj, hle⟩ := ih n h
      exact ⟨j₀ + 1, by simp [lastIdxOf, hfj], Nat.succ_le_succ hle⟩

/-- A successful `flatClose` scan contains a closing brace. -/
theorem flatClose_exists :
    ∀ cs : List Char, flatClose cs = true → ∃ j, cs.get? j = some rbraceC := by
  intro cs
  induction cs with
  | nil => intro h; simp [flatClose] at h
  | cons c rest ih =>
    intro h
    rw [flatClose] at h
    by_cases h1 : c = rbraceC
    · exact ⟨0, by simp [h1]⟩
    · by_cases h2 : c = lbraceC
      · rw [if_neg h1, if_pos h2] at h
        exact absurd h (by simp)
      · rw [if_neg h1, if_neg h2] at h
        obtain ⟨j, hj⟩ := ih h
        exact ⟨j + 1, by simpa using hj⟩

/-- A successful flat-brace search exhibits an opening brace strictly before
a closing brace. -/
theorem flatBraceMatch_exists :
    ∀ cs : List Char, flatBraceMatch cs = true →
      ∃ i j, i < j ∧ cs.get? i = some lbraceC ∧ cs.get? j = some rbraceC := by
  intro cs
  induction cs with
  | nil => intro h; simp [flatBraceMatch] at h
  | cons c rest ih =>
    intro h
    rw [flatBraceMatch, Bool.or_eq_true, Bool.and_eq_true] at h
    rcases h with ⟨hc, hcl⟩ | h
    · obtain ⟨j, hj⟩ := flatClose_exists rest hcl
      refine ⟨0, j + 1, Nat.succ_pos j, ?_, ?_⟩
      · have : c = lbraceC := by simpa using hc
        simp [this]
      · simpa using hj
    · obtain ⟨i, j, hij, hi, hj⟩ := ih h
      exact ⟨i + 1, j + 1, Nat.succ_lt_succ hij, by simpa using hi, by simpa using hj⟩

/-- Whenever the last-ditch regex search of strategy 2 could match at all,
the first opening brace lies strictly before the last closing brace, i.e. the
main branch of strategy 2 already fired: the source's `else` arm never
rewrites the text, justifying its embedding as the identity. -/
theorem strategy2_fallback_vacuous (cs : List Char)
    (h : flatBraceMatch cs = true) :
    ∃ i j, firstIdxOf lbraceC cs = some i ∧ lastIdxOf rbraceC cs = some j ∧ i < j := by
  obtain ⟨i', j', hij, hi, hj⟩ := flatBraceMatch_exists cs h
  obtain ⟨i₀, hfi, hle⟩ := firstIdxOf_min lbraceC cs i' hi
  obtain ⟨j₀, hfj, hge⟩ := lastIdxOf_max rbraceC cs j' hj
  exact ⟨i₀, j₀, hfi, hfj, lt_of_le_of_lt hle (lt_of_lt_of_le hij hge)⟩

/-! ## Helper lemmas: the store invariant under failure-free writes -/

/-- `load_index` preserves the store invariant. -/
theorem vsInv_load {E : Type} (s : VS E) (h : vsInv s = true) :
    vsInv (load_index s).1 = true := by
  rcases hd : s.diskIndex with _ | di
  · simp [vsInv, load_index, hd]
  · rcases hm : s.diskMeta with _ | dm
    · simp [vsInv, hd, hm] at h
    · simp [vsInv, load_index, hd, hm] at h ⊢
      exact h.2

/-- A fully successful `save_index` preserves the in-memory state and leaves
consistent files. -/
theorem vsInv_save_ok {E : Type} (s : VS E)
    (h : s.index.length = s.metadata.length) :
    vsInv (save_index true true s).1 = true := by
  simp [vsInv, save_index, h]

/-- A fully successful `add_reference_doc` preserves the store invariant. -/
theorem vsInv_addRef {E : Type} (d c : String) (md : List (String × String))
    (emb : E) (s : VS E) (h : s.index.length = s.metadata.length) :
    vsInv (add_reference_doc true true d c md emb s).1 = true := by
  unfold add_reference_doc
  apply vsInv_save_ok
  simp [h]

/-- Any single operation whose durable writes succeed preserves the store
invariant. -/
theorem vsInv_runOp {E : Type} (s : VS E) (op : VSOp E) (h : vsInv s = true)
    (hok : opWritesOk op = true) : vsInv (runOp s op).1 = true := by
  have hmem : s.index.length = s.metadata.length := by
    have h' := h
    simp [vsInv] at h'
    exact h'.1
  cases op with
  | load => exact vsInv_load s h
  | save w1 w2 =>
    rcases (by simpa [opWritesOk] using hok : w1 = true ∧ w2 = true) with ⟨h1, h2⟩
    subst h1; subst h2
    exact vsInv_save_ok s hmem
  | addRef w1 w2 d c md e =>
    rcases (by simpa [opWritesOk] using hok : w1 = true ∧ w2 = true) with ⟨h1, h2⟩
    subst h1; subst h2
    exact vsInv_addRef d c md e s hmem
  | addFb w1 w2 sj fj fb ts e =>
    rcases (by simpa [opWritesOk] using hok : w1 = true ∧ w2 = true) with ⟨h1, h2⟩
    subst h1; subst h2
    exact vsInv_addRef _ _ _ e s hmem
  | search => exact h

/-- All-successful operation sequences preserve the store invariant. -/
theorem vsInv_runOps {E : Type} (ops : List (VSOp E)) :
    ∀ s : VS E, vsInv s = true → (∀ op ∈ ops, opWritesOk op = true) →
      vsInv (runOps s ops) = true := by
  induction ops with
  | nil => intro s h _; simpa [runOps] using h
  | cons op rest ih =>
    intro s h hok
    rw [runOps]
    exact ih _ (vsInv_runOp s op h (hok op (List.mem_cons_self _ _)))
      (fun o ho => hok o (List.mem_cons_of_mem _ ho))

/-! ## Helper lemmas: unfolding `run_raw` one activation at a time -/

/-- A normally-returning gateway call ends the activation with the hardcoded
framework. -/
theorem run_raw_eq_ok (p : ParserKind) (σ : Nat → GatewayOutcome) (i : Nat)
    (is_retry use_fallback : Bool) (t : String)
    (h : σ i = GatewayOutcome.ok t) :
    run_raw p σ i is_retry use_fallback
      = (RunResult.framework hardcodedFramework, 1) := by
  rw [run_raw, h]

/-- A raising gateway call during a retry ends the cascade fatally. -/
theorem run_raw_eq_err_retry (p : ParserKind) (σ : Nat → GatewayOutcome)
    (i : Nat) (use_fallback : Bool) (m : String)
    (h : σ i = GatewayOutcome.err m) :
    run_raw p σ i true use_fallback
      = (RunResult.fatal ("ALL ATTEMPTS FAILED: " ++ m), 1) := by
  rw [run_raw, h]

/-- A raising gateway call on a first attempt recurses once with the retry
flags set. -/
theorem run_raw_eq_err_first (p : ParserKind) (σ : Nat → GatewayOutcome)
    (i : Nat) (use_fallback : Bool) (m : String)
    (h : σ i = GatewayOutcome.err m) :
    run_raw p σ i false use_fallback
      = ((run_raw p σ (i + 1) true true).1,
         (run_raw p σ (i + 1) true true).2 + 1) := by
  rw [run_raw, h]

/-! ## Claim theorems -/

set_option maxRecDepth 40000 in
/-- C1: on the end-to-end raw output with the fenced scope JSON, the cleaning
pipeline does unwrap the fenced block and preserves the duplicated objective —
yet `_run_raw` invoked with the scope parser (as `generate_scope` invokes it)
discards the cleaned text and returns the fixed hardcoded example
`ContentFramework`, not a scope record with `project_title = "Acme Site"`:
the unconditional return at ai_processor.py lines 296-311 precedes every
parse. -/
theorem run_raw_acme_returns_hardcoded_framework :
    (run_raw ParserKind.scope (fun _ => GatewayOutcome.ok acmeRaw) 0 false false).1
        = RunResult.framework hardcodedFramework ∧
      cleanPipeline acmeRaw = acmeJson := by
  constructor
  · rw [run_raw]
  · decide

/-- C2: `generate_scope`, asked for a `ScopeDocument`, returns the hardcoded
example `ContentFramework` whenever the gateway call succeeds — a record of a
different schema than requested, neither a schema-valid scope record nor a
raised fatal error. -/
theorem generate_scope_wrong_schema :
    generate_scope (fun _ => GatewayOutcome.ok "ok") =
      RunResult.framework hardcodedFramework := by
  unfold generate_scope
  rw [run_raw]

set_option maxRecDepth 40000 in
/-- C3: a first-attempt completion whose cleaned text contains the
`"properties":` schema indicator triggers no escalation at all: `_run_raw`
performs exactly one activation (so zero escalations to the fallback tier,
where the claim demands exactly one) and returns the hardcoded framework —
the detection at ai_processor.py lines 346-352 stands after the unconditional
return and is unreachable. -/
theorem run_raw_schema_regurgitation_not_detected :
    is_schema_text (cleanPipeline propText) = true ∧
      (run_raw ParserKind.scope (fun _ => GatewayOutcome.ok propText) 0 false false).2
        = 1 ∧
      (run_raw ParserKind.scope (fun _ => GatewayOutcome.ok propText) 0 false false).1
        = RunResult.framework hardcodedFramework := by
  refine ⟨by decide, ?_, ?_⟩ <;> rw [run_raw]

/-- C4: every activation of `_run_raw` whose gateway call returns normally
produces the fixed hardcoded example `ContentFramework`, independent of the
completion text, the requested parser and the retry flags; in particular any
two normally-returning executions return the same value. -/
theorem run_raw_result_independent_of_text (p : ParserKind)
    (σ : Nat → GatewayOutcome) (i : Nat) (is_retry use_fallback : Bool)
    (t : String) (h : σ i = GatewayOutcome.ok t) :
    (run_raw p σ i is_retry use_fallback).1
      = RunResult.framework hardcodedFramework := by
  rw [run_raw, h]

/-- Witness for C4 at a concrete stream and text. -/
theorem run_raw_result_independent_of_text_witness :
    (run_raw ParserKind.scope (fun _ => GatewayOutcome.ok "Hello") 0 false false).1
      = RunResult.framework hardcodedFramework :=
  run_raw_result_independent_of_text ParserKind.scope
    (fun _ => GatewayOutcome.ok "Hello") 0 false false "Hello" rfl

/-- C5 counterexample: with `A.project_title` empty and `B.project_title`
equal to `"Y"`, the merged title is the empty string, not `B`'s value — the
merge does not fall back to `B` on an empty scalar. -/
theorem merge_scopes_scalar_counterexample :
    (merge_scopes (titledScope "") (titledScope "Y")).project_title = "" ∧
      (titledScope "Y").project_title = "Y" ∧
      (merge_scopes (titledScope "") (titledScope "Y")).project_title
        ≠ (titledScope "Y").project_title := by
  decide

/-- C5 amended: the merge assigns each scalar text field the first record's
value unconditionally — `project_title := a.project_title` in `merge_scopes`
and `cta_strategy := a.cta_strategy` in `merge_frameworks` — even when that
value is empty and the second record's value is not. -/
theorem merge_scalar_always_first (a b : ScopeDocument)
    (fa fb : ContentFramework) :
    (merge_scopes a b).project_title = a.project_title ∧
      (merge_frameworks fa fb).cta_strategy = fa.cta_strategy :=
  ⟨rfl, rfl⟩

/-- C6 counterexample: a scope record with duplicate-free lists and a
non-empty `strategic_recommendations` is not reproduced by
`merge_scopes r r`: the merge omits the field, so Pydantic resets it to the
empty list. -/
theorem merge_scopes_idem_counterexample :
    merge_scopes recScope recScope ≠ recScope ∧
      recScope.objectives.Nodup ∧ recScope.scope_in.Nodup ∧
      recScope.scope_out.Nodup ∧ recScope.navigation.Nodup ∧
      recScope.gap_analysis.Nodup ∧ recScope.strategic_recommendations.Nodup ∧
      (merge_scopes recScope recScope).strategic_recommendations = [] := by
  decide

/-- C6 amended: for a scope record with duplicate-free lists,
`merge_scopes r r` reproduces every field except
`strategic_recommendations`, which is reset to the empty list; for a
framework record whose lists are duplicate-free under the merge's key
projections, `merge_frameworks r r = r` exactly. -/
theorem merge_self_amended (s : ScopeDocument) (f : ContentFramework)
    (h1 : s.objectives.Nodup) (h2 : s.scope_in.Nodup) (h3 : s.scope_out.Nodup)
    (h4 : s.navigation.Nodup) (h5 : s.gap_analysis.Nodup)
    (h6 : (f.header_nav.map headerKey).Nodup)
    (h7 : (f.footer_nav.map footerKey).Nodup)
    (h8 : (f.website_assets.map assetKey).Nodup) :
    merge_scopes s s = { s with strategic_recommendations := [] } ∧
      merge_frameworks f f = f := by
  constructor
  · unfold merge_scopes
    rw [dedupe_double _ h1, dedupe_double _ h2, dedupe_double _ h3,
        dedupe_double _ h4, dedupe_double _ h5]
  · unfold merge_frameworks
    rw [dedupeBy_double _ _ h6, dedupeBy_double _ _ h7, dedupeBy_double _ _ h8]

/-- Witness for C6's amended theorem at concrete records. -/
theorem merge_self_amended_witness :
    merge_scopes recScope recScope
        = { recScope with strategic_recommendations := [] } ∧
      merge_frameworks hardcodedFramework hardcodedFramework
        = hardcodedFramework :=
  merge_self_amended recScope hardcodedFramework (by decide) (by decide)
    (by decide) (by decide) (by decide) (by decide) (by decide) (by decide)

/-- C7: with `A.project_title = "X"` and `B.project_title = "Y"`,
`merge_scopes A B` keeps `"X"` and `merge_scopes B A` keeps `"Y"` — the merge
is not commutative on scalar fields. -/
theorem merge_scopes_asymmetry (a b : ScopeDocument)
    (ha : a.project_title = "X") (hb : b.project_title = "Y") :
    (merge_scopes a b).project_title = "X" ∧
      (merge_scopes b a).project_title = "Y" := by
  constructor
  · simpa [merge_scopes] using ha
  · simpa [merge_scopes] using hb

/-- Witness for C7 at concrete records. -/
theorem merge_scopes_asymmetry_witness :
    (merge_scopes (titledScope "X") (titledScope "Y")).project_title = "X" ∧
      (merge_scopes (titledScope "Y") (titledScope "X")).project_title = "Y" :=
  merge_scopes_asymmetry (titledScope "X") (titledScope "Y") rfl rfl

/-- C8 counterexample: when the index write fails during
`add_reference_doc` on an empty store, the operation raises, yet the
in-memory index retains the appended embedding while the durable index file
is untouched — the in-memory state is not rolled back and diverges from the
durable state. -/
theorem add_reference_doc_rollback_counterexample :
    ((add_reference_doc false false "d" "c" [] (0 : Nat) (freshVS Nat)).2).isSome
        = true ∧
      (add_reference_doc false false "d" "c" [] (0 : Nat) (freshVS Nat)).1.index
        = [0] ∧
      (add_reference_doc false false "d" "c" [] (0 : Nat) (freshVS Nat)).1.index
        ≠ (freshVS Nat).index ∧
      (add_reference_doc false false "d" "c" [] (0 : Nat) (freshVS Nat)).1.diskIndex
        = none := by
  decide

/-- C8 amended: `add_reference_doc` always appends the entry to the
in-memory index and metadata — also when a durable write fails and the
operation raises (no rollback, so on failure the in-memory state diverges
from the durable state); when both writes succeed, the durable files contain
exactly the appended state and nothing is raised. -/
theorem add_reference_doc_spec (E : Type) (w1 w2 : Bool) (d c : String)
    (md : List (String × String)) (emb : E) (s : VS E) :
    (add_reference_doc w1 w2 d c md emb s).1.index = s.index ++ [emb] ∧
      (add_reference_doc w1 w2 d c md emb s).1.metadata
        = s.metadata ++ [{ id := d, content := c, metadata := md }] ∧
      (add_reference_doc w1 w2 d c md emb s).1.diskIndex
        = (if w1 then some (s.index ++ [emb]) else s.diskIndex) ∧
      (add_reference_doc w1 w2 d c md emb s).1.diskMeta
        = (if w1 && w2 then
             some (s.metadata ++ [{ id := d, content := c, metadata := md }])
           else s.diskMeta) ∧
      ((add_reference_doc w1 w2 d c md emb s).2).isSome = !(w1 && w2) := by
  cases w1 <;> cases w2 <;> simp [add_reference_doc, save_index]

/-- C9 counterexample: after a successful add and an add whose metadata
write fails, the index file holds two vectors while the metadata file still
holds one record; the next load (e.g. a new engine over the same directory)
produces an in-memory store with two embeddings and one metadata record —
the parallel-sequences invariant is not preserved by every operation once a
durable write fails. -/
theorem vs_invariant_counterexample :
    vsInv (runOps (freshVS Nat) breakOps) = false ∧
      (runOps (freshVS Nat) breakOps).index.length = 2 ∧
      (runOps (freshVS Nat) breakOps).metadata.length = 1 := by
  decide

/-- C9 amended: every operation whose durable writes succeed preserves the
invariant, so in any execution free of persistence failures every reachable
state has as many stored embeddings as metadata records. -/
theorem vs_parallel_invariant (E : Type) (ops : List (VSOp E)) (s : VS E)
    (h : vsInv s = true) (hok : ∀ op ∈ ops, opWritesOk op = true) :
    (runOps s ops).index.length = (runOps s ops).metadata.length := by
  have hinv := vsInv_runOps ops s h hok
  simp [vsInv] at hinv
  exact hinv.1

/-- Witness for C9's amended theorem: an all-successful run from a fresh
store. -/
theorem vs_parallel_invariant_witness :
    (runOps (freshVS Nat) demoOps).index.length
      = (runOps (freshVS Nat) demoOps).metadata.length :=
  vs_parallel_invariant Nat demoOps (freshVS Nat) (by decide) (by decide)

/-- C10: the recovery cascade is bounded-depth and total: a top-level call
performs at most two activations of `_run_raw` (the nested retry guarded by
`is_retry`; the repair sub-call stands after the unconditional return and
never runs), and its value is a record or the fatal error. -/
theorem run_raw_bounded_depth (p : ParserKind) (σ : Nat → GatewayOutcome)
    (use_fallback : Bool) :
    (run_raw p σ 0 false use_fallback).2 ≤ 2 ∧
      ((∃ f, (run_raw p σ 0 false use_fallback).1 = RunResult.framework f) ∨
        (∃ m, (run_raw p σ 0 false use_fallback).1 = RunResult.fatal m)) := by
  rcases h0 : σ 0 with t0 | m0
  · rw [run_raw_eq_ok p σ 0 false use_fallback t0 h0]
    exact ⟨by simp, Or.inl ⟨hardcodedFramework, rfl⟩⟩
  · rw [run_raw_eq_err_first p σ 0 use_fallback m0 h0]
    rcases h1 : σ 1 with t1 | m1
    · rw [run_raw_eq_ok p σ (0 + 1) true true t1 h1]
      exact ⟨by simp, Or.inl ⟨hardcodedFramework, rfl⟩⟩
    · rw [run_raw_eq_err_retry p σ (0 + 1) true m1 h1]
      exact ⟨by simp, Or.inr ⟨"ALL ATTEMPTS FAILED: " ++ m1, rfl⟩⟩

end Infinity
